import Mathlib

/-
Verification development for the Coffee_Backend repository.

The definitions below are a shallow embedding of the code paths that the
claims C1..C10 exercise:

* `src/unnamed/part_004` (the database module `server/db.ts`):
  `executeWithRetry`, `isConnectionError`, the `NodeCache`-backed
  `cachedQuery`, and `invalidateCache`;
* `src/server/storage.ts`: `getGeneratedImageById`,
  `checkImageAvailability`, `createPosterPurchase`, `createOrder`;
* `src/server/catalogue-routes.ts`: the `POST /purchase-poster` handler and
  the `PATCH /images/:id/public` handler;
* `src/server/middleware/db-health.ts`: `checkDatabaseHealth` and
  `databaseHealthMiddleware`.

Monetary amounts are modelled in hundredths (CHF 29.95 becomes 2995) so that
all arithmetic is over `Nat`/`Int`.  Database `NULL` / JavaScript
`undefined` is modelled with `Option`.
-/

namespace CoffeeBackend

/-- JavaScript `x || d` applied to a nullable numeric column: `null`,
`undefined` and `0` are falsy and yield the default. -/
def jsOr (o : Option Nat) (d : Nat) : Nat :=
  match o with
  | none => d
  | some n => if n = 0 then d else n

/-- Check that `p` is a prefix of `s` (character lists). -/
def charsStartWith : List Char → List Char → Bool
  | [], _ => true
  | _ :: _, [] => false
  | p :: ps, c :: cs => p = c && charsStartWith ps cs

/-- Check that `pat` occurs as a contiguous substring of `s`
(character lists); used to model JavaScript `String.prototype.includes`. -/
def charsContains (pat : List Char) : List Char → Bool
  | [] => charsStartWith pat []
  | c :: cs => charsStartWith pat (c :: cs) || charsContains pat cs

/-- JavaScript `s.includes(pat)`. -/
def strIncludes (s pat : String) : Bool :=
  charsContains pat.data s.data

/-! ### Resilient executor (`server/db.ts`, src/unnamed/part_004)

`executeWithRetry` invokes `queryFn` up to `maxRetries` times, retrying
(after an exponential-backoff sleep of `100 * 2 ^ attempt` ms) only when
`isConnectionError` classifies the raised error as connection-related.
The query function is modelled as a map from the 1-based attempt index to
that invocation's outcome; the embedding additionally records how many
times the operation was invoked and the sequence of backoff delays, so that
the retry policy itself is observable in theorems. -/

/-- Error raised by the `pg` driver: an optional SQLSTATE code and a
message string. -/
structure PgError where
  code : Option String
  message : String
deriving DecidableEq, Repr

/-- Source list `connectionErrorCodes` from `isConnectionError`. -/
def connectionErrorCodes : List String :=
  ["57P01", "57P02", "57P03", "08006", "08001", "08004", "XX000"]

/-- Embedding of `isConnectionError`: the code is one of the listed
SQLSTATEs, or the message contains `'connection'` or `'timeout'`. -/
def isConnectionError (e : PgError) : Bool :=
  (match e.code with
   | some c => connectionErrorCodes.contains c
   | none => false)
  || strIncludes e.message "connection"
  || strIncludes e.message "timeout"

/-- Observable trace of one `executeWithRetry` run: the final outcome, the
number of invocations of the operation, and the backoff delays slept. -/
structure RetryTrace (V : Type) where
  result : Except PgError V
  calls : Nat
  delays : List Nat
deriving Repr

/-- Loop body of `executeWithRetry`: `attempt` is the 1-based attempt
index, `fuel` the number of attempts still allowed. -/
def retryGo (outcomes : Nat → Except PgError V) (lastErr : PgError)
    (attempt fuel calls : Nat) (delays : List Nat) : RetryTrace V :=
  match fuel with
  | 0 => ⟨.error lastErr, calls, delays⟩
  | fuel + 1 =>
    match outcomes attempt with
    | .ok v => ⟨.ok v, calls + 1, delays⟩
    | .error e =>
      if isConnectionError e then
        retryGo outcomes e (attempt + 1) fuel (calls + 1)
          (delays ++ [100 * 2 ^ attempt])
      else
        ⟨.error e, calls + 1, delays⟩

/-- Embedding of `executeWithRetry(queryFn, maxRetries = 3)`.  The dummy
error seeding `lastErr` is never surfaced when `maxRetries ≥ 1`. -/
def executeWithRetry (outcomes : Nat → Except PgError V)
    (maxRetries : Nat := 3) : RetryTrace V :=
  retryGo outcomes ⟨none, ""⟩ 1 maxRetries 0 []

/-- Backoff delays slept after the first `k` attempts all fail with
connection-class errors: `100 * 2 ^ attempt` for attempts `1 … k`. -/
def backoffDelays (k : Nat) : List Nat :=
  (List.range k).map (fun i => 100 * 2 ^ (i + 1))

/-! ### NodeCache model and `cachedQuery` (`server/db.ts`)

A `NodeCache` maps string keys to stored values with an expiry instant.
The stored value is itself an `Option` because JavaScript code may cache
`undefined` (e.g. `result[0]` of an empty select); `get` returns
`undefined` for a missing key, an expired entry, or a stored `undefined`,
and those three cases are indistinguishable to the caller. -/

/-- Cache contents: association list of key, stored value (possibly the
JavaScript `undefined`, i.e. `none`), and expiry instant. -/
def NCache (K V : Type) := List (K × Option V × Nat)

/-- Look up `k` in the underlying map. -/
def ncFind [DecidableEq K] (c : NCache K V) (k : K) : Option (Option V × Nat) :=
  match c with
  | [] => none
  | (k', v, e) :: rest => if k = k' then some (v, e) else ncFind rest k

/-- `NodeCache.get` at instant `now`: `none` when the key is absent, the
entry has expired, or the stored value is `undefined`. -/
def ncGet [DecidableEq K] (c : NCache K V) (k : K) (now : Nat) : Option V :=
  match ncFind c k with
  | none => none
  | some (v, e) => if now ≤ e then v else none

/-- `NodeCache.set` with TTL: overwrites any previous entry for the key and
stores expiry `now + ttl`. -/
def ncSet [DecidableEq K] (c : NCache K V) (k : K) (v : Option V)
    (ttl now : Nat) : NCache K V :=
  (k, v, now + ttl) :: c.filter (fun kv => !(decide (kv.1 = k)))

/-- `NodeCache.del`, the single-key case of `invalidateCache`. -/
def ncDel [DecidableEq K] (c : NCache K V) (k : K) : NCache K V :=
  c.filter (fun kv => !(decide (kv.1 = k)))

/-- Result of one `cachedQuery` call: the value returned to the caller, the
cache afterwards, and whether the producer (the wrapped database query,
executed through `executeWithRetry`) actually ran. -/
structure CQResult (K V : Type) where
  value : Option V
  cache : NCache K V
  producerRan : Bool

/-- Embedding of `cachedQuery(cacheKey, queryFn, ttl)` at instant `now`.
The producer is modelled by the value it would return (`none` models a
query resolving to `undefined`). -/
def cachedQuery [DecidableEq K] (c : NCache K V) (k : K)
    (producer : Option V) (ttl now : Nat) : CQResult K V :=
  match ncGet c k now with
  | some v => ⟨some v, c, false⟩
  | none => ⟨producer, ncSet c k producer ttl now, true⟩

/-! ### Data model (`generatedImages`, `posterPurchases` rows)

Only the columns the verified code paths read or write are modelled.  The
`name`, `momentLink` and `city` columns updated by the publish handler are
pass-through metadata with no interaction with the publish/quota/supply
logic and are omitted.  Nullable columns are `Option`-valued. -/

/-- The `supplyType` column as read by `checkImageAvailability`
(`image.supplyType === 'unlimited'`). -/
inductive SupplyType where
  | limited
  | unlimited
deriving DecidableEq, Repr

/-- Row of `generatedImages` for one artifact. -/
structure GeneratedImage where
  userId : Nat
  isPublic : Bool
  isApproved : Bool
  totalSupply : Option Nat
  soldCount : Option Nat
  pricePerUnit : Option Nat
  supplyType : SupplyType
  editionPricingType : Option String
deriving DecidableEq, Repr

/-- Row of `posterPurchases` for the artifact (buyer identity is carried by
`userEmail` in the source; it does not affect any claim and is kept as an
opaque `Nat`). -/
structure PosterPurchase where
  userEmail : Nat
  editionNumber : Nat
  amountPaid : Nat
deriving DecidableEq, Repr

/-! ### Store state for the purchase path

All purchase-path claims concern a single artifact id, so the state keeps
the `generatedImages` row for that id, the `posterPurchases` rows
referencing it, the count of fulfillment `orders` rows, and the two
`NodeCache` entries whose string keys mention that id:
`generated-image:<id>` (the detail key read by `getGeneratedImageById`,
hence by `checkImageAvailability`) and `poster-purchases:<id>`.  Each of
those key families is modelled as an `NCache Unit _` holding the single
key for the artifact. -/

structure StoreState where
  image : Option GeneratedImage
  purchases : List PosterPurchase
  orders : Nat
  imgCache : NCache Unit GeneratedImage
  purCache : NCache Unit (List PosterPurchase)

/-- Embedding of `DatabaseStorage.getGeneratedImageById`: a `cachedQuery`
under key `generated-image:<id>` with a 60-second TTL whose producer is
`result[0]` of a select on the row (so `undefined` when the row is
absent).  Returns the value handed to the caller and the updated state. -/
def getGeneratedImageById (s : StoreState) (now : Nat) :
    Option GeneratedImage × StoreState :=
  let r := cachedQuery s.imgCache () s.image 60 now
  (r.value, { s with imgCache := r.cache })

/-- Availability computation of `checkImageAvailability` after the row has
been fetched: unlimited supply reports `(true, -1)`; limited supply
reports `totalSupply - soldCount` clamped at `0` (with the source's
`|| 0` defaults). -/
def availabilityOf (img : GeneratedImage) : Bool × Int :=
  if img.supplyType = .unlimited then
    (true, -1)
  else
    let totalSupply : Int := jsOr img.totalSupply 0
    let soldCount : Int := jsOr img.soldCount 0
    let remainingSupply : Int := totalSupply - soldCount
    (decide (0 < remainingSupply), max 0 remainingSupply)

/-- Embedding of `DatabaseStorage.checkImageAvailability`: reads the row
through the cached `getGeneratedImageById` and reports availability; a
missing row yields `(false, 0)`. -/
def checkImageAvailability (s : StoreState) (now : Nat) :
    (Bool × Int) × StoreState :=
  match getGeneratedImageById s now with
  | (none, s') => ((false, 0), s')
  | (some img, s') => (availabilityOf img, s')

/-! ### The `POST /purchase-poster` handler

The handler body (after authentication and shipping validation, which no
claim concerns) runs `db.transaction(async (tx) => ...)`.  Crucially, only
the statements issued through `tx` — the initial select and the
`soldCount` update — belong to that transaction.  `storage.createPosterPurchase`
and `storage.createOrder` issue their inserts through the module-level
`db` handle (the shared pool), so those writes commit immediately and
survive a rollback of the surrounding transaction; `createPosterPurchase`
also calls `invalidateCache('poster-purchases:<id>')` right after its
insert, before the transaction commits.

`FailPoint` injects a transient failure at one of the four statements
inside the transaction callback; the failing statement throws before
performing its effect, the transaction rolls back (discarding pending
`tx` writes), and effects already performed through `db` persist. -/

/-- Statement of the purchase transaction callback at which an injected
failure raises. -/
inductive FailPoint where
  | atSelect
  | atInsertPurchase
  | atUpdateSold
  | atInsertOrder
deriving DecidableEq, Repr

/-- Outcome of one purchase call as observed by the HTTP caller. -/
inductive PurchaseOutcome where
  | success (editionNumber : Nat) (amountPaid : Nat)
  | notFound
  | notAvailable
  | soldOut
  | txAborted (p : FailPoint)
deriving DecidableEq, Repr

/-- Embedding of the `POST /purchase-poster` handler body for one artifact,
with an optional injected failure point.  Writes issued through `tx` (the
`soldCount` update) take effect only at commit; writes issued through the
global `db` (the purchase insert, its cache invalidation, and the order
insert) take effect immediately. -/
def purchasePoster (s : StoreState) (failAt : Option FailPoint) :
    PurchaseOutcome × StoreState :=
  if failAt = some .atSelect then
    (.txAborted .atSelect, s)
  else
    match s.image with
    | none => (.notFound, s)
    | some image =>
      if !image.isPublic then
        (.notAvailable, s)
      else
        let soldCount := jsOr image.soldCount 0
        let totalSupply := jsOr image.totalSupply 10
        if soldCount ≥ totalSupply then
          (.soldOut, s)
        else
          let editionNumber := jsOr image.soldCount 0 + 1
          let pricePerUnit := jsOr image.pricePerUnit 2995
          if failAt = some .atInsertPurchase then
            (.txAborted .atInsertPurchase, s)
          else
            -- createPosterPurchase: insert through `db`, then invalidate
            -- the poster-purchases cache key; both effects are immediate.
            let s₁ : StoreState :=
              { s with
                purchases := s.purchases ++ [⟨0, editionNumber, pricePerUnit⟩]
                purCache := ncDel s.purCache () }
            if failAt = some .atUpdateSold then
              (.txAborted .atUpdateSold, s₁)
            else
              -- tx.update: pending until commit.
              let pendingImage := { image with soldCount := some editionNumber }
              if failAt = some .atInsertOrder then
                (.txAborted .atInsertOrder, s₁)
              else
                let s₂ : StoreState := { s₁ with orders := s₁.orders + 1 }
                -- Commit: the pending tx write becomes visible.
                (.success editionNumber pricePerUnit,
                 { s₂ with image := some pendingImage })

/-! ### Interleaved executions of `POST /purchase-poster`

For the concurrency claim the handler is decomposed into its four
database round trips, executed by several request handlers against one
published artifact whose `soldCount`/`totalSupply` columns are populated.

Semantics of the shared store (PostgreSQL at its default `READ COMMITTED`
level, as used by `db.transaction`):

* the in-transaction `SELECT` takes no lock and observes the latest
  committed row version;
* the purchase insert goes through the global `db` handle, so it
  auto-commits immediately and is visible to every other handler at once;
  the `posterPurchases` table carries a uniqueness constraint on
  `(imageId, editionNumber)` — the constraint lives in `@shared/schema`,
  which is not part of the provided sources, and is modelled from the
  spec ("a uniqueness constraint on (artifactId, editionNumber)"); a
  conflicting insert raises, aborting that handler's transaction;
* the `tx.update` of `soldCount` takes the row lock until commit; a
  handler whose update is blocked simply cannot take that step yet;
* commit publishes the pending `soldCount` value and releases the lock.

The fulfillment-order insert does not touch the artifact or purchase rows
and is omitted from the machine. -/

/-- Outcome of one interleaved purchase attempt. -/
inductive COutcome where
  | success (editionNumber : Nat)
  | soldOut
  | uniqueViolation
deriving DecidableEq, Repr

/-- Per-handler control state: `pc 0` before the select, `pc 1` after the
select with the snapshot read, `pc 2` after the purchase insert, `pc 3`
holding the row lock with the update pending, `pc 4` finished. -/
structure ThreadSt where
  pc : Nat
  snapSold : Nat
  res : Option COutcome
deriving DecidableEq, Repr

/-- Shared state of an interleaved execution over one artifact. -/
structure ConcSt where
  sold : Nat
  supply : Nat
  rows : List Nat
  lock : Option Nat
  pending : Nat
  threads : List ThreadSt
deriving DecidableEq, Repr

/-- Fetch thread `t` (out-of-range ids are inert). -/
def ConcSt.thread (s : ConcSt) (t : Nat) : ThreadSt :=
  (s.threads.getD t ⟨4, 0, none⟩)

/-- Replace thread `t`'s local state. -/
def ConcSt.setThread (s : ConcSt) (t : Nat) (th : ThreadSt) : ConcSt :=
  { s with threads := s.threads.set t th }

/-- One scheduler step: handler `t` performs its next database round trip
if it is enabled (a blocked update or a finished handler leaves the state
unchanged). -/
def concStep (s : ConcSt) (t : Nat) : ConcSt :=
  let th := s.thread t
  match th.pc with
  | 0 =>
    -- In-transaction SELECT: observe the committed soldCount, then run the
    -- availability check of the handler.
    let snap := s.sold
    if snap ≥ s.supply then
      s.setThread t ⟨4, snap, some .soldOut⟩
    else
      s.setThread t ⟨1, snap, none⟩
  | 1 =>
    -- createPosterPurchase through `db`: immediate, constraint-checked.
    let ed := th.snapSold + 1
    if s.rows.contains ed then
      s.setThread t ⟨4, th.snapSold, some .uniqueViolation⟩
    else
      { s.setThread t ⟨2, th.snapSold, none⟩ with rows := s.rows ++ [ed] }
  | 2 =>
    -- tx.update of soldCount: needs the row lock.
    match s.lock with
    | some _ => s
    | none =>
      { s.setThread t ⟨3, th.snapSold, none⟩ with
        lock := some t, pending := th.snapSold + 1 }
  | 3 =>
    -- Commit: publish the pending write, release the lock.
    { s.setThread t ⟨4, th.snapSold, some (.success (th.snapSold + 1))⟩ with
      sold := s.pending, lock := none }
  | _ => s

/-- Run a schedule (a list of thread ids, each entry one step). -/
def concRun (sched : List Nat) (s : ConcSt) : ConcSt :=
  sched.foldl concStep s

/-- Initial interleaved state: `n` handlers about to purchase an artifact
with the given committed `soldCount` and `totalSupply`. -/
def concInit (n sold supply : Nat) : ConcSt :=
  ⟨sold, supply, [], none, 0, List.replicate n ⟨0, 0, none⟩⟩

/-! ### The `PATCH /images/:id/public` handler (publish / unpublish)

State: the seller's `users` row and the seller-visible `generatedImages`
rows as an association list keyed by image id.  A call carries the request
body (`isPublic`, optional `totalSupply` and `pricePerUnit`) plus the
evaluation of the handler's `isSubscribed` predicate at that request
(`userType === 'artistic_collective' && subscriptionStatus === 'active' &&`
end-date check), which can differ between calls as the subscription
changes.  The `postersForSale` column is an integer updated in-database
(`postersForSale + 1`, `GREATEST(0, postersForSale - 1)`). -/

/-- Seller row: identity and the `postersForSale` counter. -/
structure UserRow where
  id : Nat
  postersForSale : Int
deriving DecidableEq, Repr

/-- State touched by the publish handler. -/
structure PublishState where
  images : List (Nat × GeneratedImage)
  user : UserRow
deriving DecidableEq, Repr

/-- One `PATCH /images/:id/public` request by the authenticated seller. -/
structure PublishCall where
  imageId : Nat
  isPublic : Bool
  totalSupply : Option Nat
  pricePerUnit : Option Nat
  exempt : Bool
deriving DecidableEq, Repr

/-- Outcome of one publish call as observed by the HTTP caller. -/
inductive PublishResult where
  | ok
  | invalidSupply
  | invalidPrice
  | notFound
  | forbidden
  | quotaExceeded
  | invalidSupplyChange
deriving DecidableEq, Repr

/-- First row with the given key, as the handler's
`db.select().where(eq(generatedImages.id, id))` then `results[0]`. -/
def lookupImage (images : List (Nat × GeneratedImage)) (id : Nat) :
    Option GeneratedImage :=
  match images with
  | [] => none
  | (i, g) :: rest => if id = i then some g else lookupImage rest id

/-- Row update keyed by id. -/
def updateImage (images : List (Nat × GeneratedImage)) (id : Nat)
    (g : GeneratedImage) : List (Nat × GeneratedImage) :=
  images.map (fun ig => if ig.1 = id then (ig.1, g) else ig)

/-- JavaScript truthiness of the guard `image.soldCount && image.soldCount > 0`. -/
def soldPositive (img : GeneratedImage) : Bool :=
  match img.soldCount with
  | some c => decide (0 < c)
  | none => false

/-- Image row as written by the handler's `updateData`: the publish flag,
and — when publishing — the flat pricing type, supply and price. -/
def publishUpdatedImage (c : PublishCall) (image : GeneratedImage) :
    GeneratedImage :=
  if c.isPublic then
    { image with
      isPublic := true
      editionPricingType := some "flat"
      totalSupply := c.totalSupply
      pricePerUnit := c.pricePerUnit }
  else
    { image with isPublic := false }

/-- Embedding of the `PATCH /images/:id/public` handler body (after
authentication): field validation, ownership check, quota eligibility,
the sales guard on supply/price changes, then the transaction updating
the image row and, for a non-exempt seller, the `postersForSale`
counter on an actual publish/unpublish transition.  Returns the HTTP
outcome, the new state, and the `posterCountChanged` flag that gates the
`user:<email>` cache invalidation. -/
def setPublished (s : PublishState) (c : PublishCall) :
    PublishResult × PublishState × Bool :=
  -- Validate supply and pricing fields if the poster is being published
  -- (`!totalSupply || totalSupply < 1 || totalSupply > 1000`).
  if c.isPublic ∧ (jsOr c.totalSupply 0 < 1 ∨ jsOr c.totalSupply 0 > 1000) then
    (.invalidSupply, s, false)
  else if c.isPublic ∧ jsOr c.pricePerUnit 0 < 2995 then
    (.invalidPrice, s, false)
  else
    match lookupImage s.images c.imageId with
    | none => (.notFound, s, false)
    | some image =>
      if image.userId ≠ s.user.id then
        (.forbidden, s, false)
      else if c.isPublic ∧ ¬c.exempt ∧ s.user.postersForSale ≥ 2 then
        (.quotaExceeded, s, false)
      else if image.isPublic ∧ soldPositive image
              ∧ (c.totalSupply ≠ image.totalSupply
                 ∨ c.pricePerUnit ≠ image.pricePerUnit) then
        (.invalidSupplyChange, s, false)
      else
        if ¬c.exempt ∧ c.isPublic ∧ ¬image.isPublic then
          (.ok,
           ⟨updateImage s.images c.imageId (publishUpdatedImage c image),
            { s.user with postersForSale := s.user.postersForSale + 1 }⟩,
           true)
        else if ¬c.exempt ∧ ¬c.isPublic ∧ image.isPublic then
          (.ok,
           ⟨updateImage s.images c.imageId (publishUpdatedImage c image),
            { s.user with postersForSale := max 0 (s.user.postersForSale - 1) }⟩,
           true)
        else
          (.ok,
           ⟨updateImage s.images c.imageId (publishUpdatedImage c image), s.user⟩,
           false)

/-- Run a sequence of publish calls. -/
def runPublish (s : PublishState) (cs : List PublishCall) : PublishState :=
  cs.foldl (fun st c => (setPublished st c).2.1) s

/-- Number of the seller's currently published artifacts. -/
def countPublished (images : List (Nat × GeneratedImage)) (uid : Nat) : Nat :=
  (images.filter (fun ig => ig.2.userId = uid ∧ ig.2.isPublic = true)).length

/-- Modelled from the spec: the ledger of artifact ids whose current
published state was entered by a publish call made "while the seller was
non-exempt".  The database stores no such per-artifact flag, so this
history is reconstructed alongside the run: a successful publish
transition records the id when the call was non-exempt (and clears it
when exempt), a successful unpublish transition clears it. -/
def runPublishTagged (s : PublishState) (ledger : List Nat) :
    List PublishCall → PublishState × List Nat
  | [] => (s, ledger)
  | c :: cs =>
    let before := lookupImage s.images c.imageId
    let (r, s', _) := setPublished s c
    let ledger' :=
      match r, before with
      | .ok, some img =>
        if c.isPublic ∧ ¬img.isPublic then
          if c.exempt then ledger.erase c.imageId
          else c.imageId :: ledger.erase c.imageId
        else if ¬c.isPublic ∧ img.isPublic then
          ledger.erase c.imageId
        else ledger
      | _, _ => ledger
    runPublishTagged s' ledger' cs

/-! ### Database health circuit breaker (`server/middleware/db-health.ts`) -/

/-- Module-level health state of `db-health.ts`. -/
structure HealthState where
  databaseHealthy : Bool
  lastCheckTime : Nat
  consecutiveFailures : Nat
deriving DecidableEq, Repr

/-- Initial module state (`databaseHealthy = true`, counters zero). -/
def initHealth : HealthState := ⟨true, 0, 0⟩

/-- Embedding of `checkDatabaseHealth` run at instant `now` whose
round-trip probe succeeds iff `probeOk`: success resets the failure
counter and marks the database healthy; a failure increments the counter
and marks the database unhealthy only from the third consecutive
failure. -/
def checkDatabaseHealth (s : HealthState) (probeOk : Bool) (now : Nat) :
    Bool × HealthState :=
  if probeOk then
    (true, ⟨true, now, 0⟩)
  else
    let f := s.consecutiveFailures + 1
    (false, ⟨if f ≥ 3 then false else s.databaseHealthy, now, f⟩)

/-- Decision of the middleware for one request. -/
inductive MwDecision where
  | proceed
  | degraded
deriving DecidableEq, Repr

/-- Embedding of `databaseHealthMiddleware` for a request with the given
HTTP method at instant `now`; `probeOk` is the outcome of the on-demand
probe in case one is issued. -/
def databaseHealthMiddleware (s : HealthState) (method : String)
    (now : Nat) (probeOk : Bool) : MwDecision × HealthState :=
  let isReadOperation := method = "GET"
  let needsCheck := ¬isReadOperation ∧ now - s.lastCheckTime > 30000
  if ¬s.databaseHealthy ∧ ¬isReadOperation then
    if needsCheck then
      let (isHealthy, s') := checkDatabaseHealth s probeOk now
      (if isHealthy then .proceed else .degraded, s')
    else
      (.degraded, s)
  else
    (.proceed, s)

/-- Run a sequence of timed health probes. -/
def runProbes (s : HealthState) (l : List (Bool × Nat)) : HealthState :=
  l.foldl (fun st p => (checkDatabaseHealth st p.1 p.2).2) s

/-- Number of probes in the trailing all-failure suffix of a probe-outcome
sequence. -/
def trailingFailures (l : List Bool) : Nat :=
  (l.reverse.takeWhile (fun b => !b)).length

/-! ## Helper lemmas -/

theorem jsOr_some_zero (n : Nat) : jsOr (some n) 0 = n := by
  by_cases h : n = 0 <;> simp [jsOr, h]

theorem jsOr_some_pos {n : Nat} (d : Nat) (h : 0 < n) : jsOr (some n) d = n := by
  have : n ≠ 0 := Nat.pos_iff_ne_zero.mp h
  simp [jsOr, this]

/-! ## Claims about the resilient executor -/

/-- The C7 claim that `executeWithRetry` treats serialization/deadlock-class
error codes as transient and retries them is false: a failure carrying
SQLSTATE `40001` (`serialization_failure`) with the standard server
message is not classified by `isConnectionError`, so the operation is
invoked exactly once, no backoff delay is slept, and the error
propagates immediately to the caller. -/
theorem retry_serialization_counterexample :
    isConnectionError ⟨some "40001", "could not serialize access due to concurrent update"⟩ = false
    ∧ executeWithRetry
        (fun _ => (.error ⟨some "40001", "could not serialize access due to concurrent update"⟩ :
          Except PgError Nat)) 3
      = ⟨.error ⟨some "40001", "could not serialize access due to concurrent update"⟩, 1, []⟩ := by
  exact ⟨rfl, rfl⟩

theorem backoffDelays_succ (k : Nat) :
    backoffDelays (k + 1) = backoffDelays k ++ [100 * 2 ^ (k + 1)] := by
  unfold backoffDelays
  rw [List.range_succ, List.map_append]
  rfl

theorem retryGo_transient_skip (outcomes : Nat → Except PgError V) :
    ∀ (d a fuel calls : Nat) (delays : List Nat) (le : PgError),
      (∀ i, a ≤ i → i < a + d →
        ∃ e, outcomes i = .error e ∧ isConnectionError e = true) →
      ∃ le', retryGo outcomes le a (d + fuel) calls delays
        = retryGo outcomes le' (a + d) fuel (calls + d)
            (delays ++ (List.range d).map (fun i => 100 * 2 ^ (a + i))) := by
  intro d
  induction d with
  | zero =>
    intro a fuel calls delays le _
    exact ⟨le, by simp⟩
  | succ d ih =>
    intro a fuel calls delays le h
    obtain ⟨e, he, hce⟩ := h a (Nat.le_refl a) (by omega)
    have hstep : retryGo outcomes le a ((d + 1) + fuel) calls delays
        = retryGo outcomes e (a + 1) (d + fuel) (calls + 1)
            (delays ++ [100 * 2 ^ a]) := by
      rw [show (d + 1) + fuel = (d + fuel) + 1 by omega]
      rw [retryGo, he]
      simp [hce]
    obtain ⟨le', hrest⟩ := ih (a + 1) fuel (calls + 1) (delays ++ [100 * 2 ^ a]) e
      (fun i h1 h2 => h i (by omega) (by omega))
    refine ⟨le', ?_⟩
    rw [hstep, hrest]
    have harg : a + 1 + d = a + (d + 1) := by omega
    have hcalls : calls + 1 + d = calls + (d + 1) := by omega
    have hdelays : (delays ++ [100 * 2 ^ a])
          ++ (List.range d).map (fun i => 100 * 2 ^ (a + 1 + i))
        = delays ++ (List.range (d + 1)).map (fun i => 100 * 2 ^ (a + i)) := by
      rw [List.range_succ_eq_map, List.map_cons, List.map_map, List.append_assoc]
      have : ((fun i => 100 * 2 ^ (a + i)) ∘ Nat.succ)
          = (fun i => 100 * 2 ^ (a + 1 + i)) := by
        funext i
        simp [Function.comp]
        ring_nf
      rw [this]
      simp
    rw [harg, hcalls, hdelays]

/-- Amended C7: `executeWithRetry` re-executes a failed operation only when
`isConnectionError` classifies the failure as connection-related (one of
the SQLSTATEs 57P01, 57P02, 57P03, 08006, 08001, 08004, XX000, or a
message containing "connection" or "timeout"); serialization/deadlock
failures are terminal.  After every transient failure (including one on
the final attempt) it sleeps `100 * 2 ^ attempt` ms, and it stops at the
first success, at the first terminal failure (which propagates with no
retry), or after `maxRetries` attempts, surfacing the last error. -/
theorem executeWithRetry_amended (outcomes : Nat → Except PgError V)
    (n j : Nat) (h1 : 1 ≤ j) (hjn : j ≤ n)
    (hprev : ∀ i, 1 ≤ i → i < j →
      ∃ e, outcomes i = .error e ∧ isConnectionError e = true) :
    (∀ v, outcomes j = .ok v →
       executeWithRetry outcomes n = ⟨.ok v, j, backoffDelays (j - 1)⟩)
    ∧ (∀ e, outcomes j = .error e → isConnectionError e = false →
       executeWithRetry outcomes n = ⟨.error e, j, backoffDelays (j - 1)⟩)
    ∧ (∀ e, j = n → outcomes j = .error e → isConnectionError e = true →
       executeWithRetry outcomes n = ⟨.error e, n, backoffDelays n⟩) := by
  obtain ⟨m, rfl⟩ : ∃ m, j = m + 1 := ⟨j - 1, by omega⟩
  obtain ⟨le', hpre⟩ := retryGo_transient_skip outcomes m 1 (n - m) 0 []
    ⟨none, ""⟩ (fun i hi1 hi2 => hprev i hi1 (by omega))
  have hbo : ([] : List Nat) ++ (List.range m).map (fun i => 100 * 2 ^ (1 + i))
      = backoffDelays m := by
    unfold backoffDelays
    simp only [List.nil_append]
    apply List.map_congr_left
    intro i _
    rw [Nat.add_comm]
  have hbase : executeWithRetry outcomes n
      = retryGo outcomes le' (m + 1) ((n - (m + 1)) + 1) m (backoffDelays m) := by
    have e1 : executeWithRetry outcomes n
        = retryGo outcomes ⟨none, ""⟩ 1 (m + (n - m)) 0 [] := by
      unfold executeWithRetry
      rw [show m + (n - m) = n by omega]
    rw [e1, hpre, Nat.add_comm 1 m, Nat.zero_add, hbo,
      show n - m = (n - (m + 1)) + 1 by omega]
  refine ⟨?_, ?_, ?_⟩
  · intro v hv
    rw [hbase]
    simp [retryGo, hv]
  · intro e he hce
    rw [hbase]
    simp [retryGo, he, hce]
  · intro e hjeq he hce
    subst hjeq
    rw [hbase]
    simp [retryGo, he, hce, backoffDelays_succ]

/-- Witness for the amended C7 theorem: with `maxRetries = 3` and an
operation whose first attempt fails with a connection-reset SQLSTATE and
whose second attempt fails with a serialization error, the serialization
error propagates from attempt 2 with one backoff sleep of 200 ms. -/
theorem executeWithRetry_amended_witness :
    executeWithRetry
      (fun i => if i = 1
        then (.error ⟨some "08006", "server closed the connection"⟩ : Except PgError Nat)
        else .error ⟨some "40001", "deadlock detected"⟩) 3
      = ⟨.error ⟨some "40001", "deadlock detected"⟩, 2, [200]⟩ := by
  have h := (executeWithRetry_amended
    (fun i => if i = 1
      then (.error ⟨some "08006", "server closed the connection"⟩ : Except PgError Nat)
      else .error ⟨some "40001", "deadlock detected"⟩) 3 2 (by omega) (by omega)
    (fun i hi1 hi2 => by
      have : i = 1 := by omega
      subst this
      exact ⟨⟨some "08006", "server closed the connection"⟩, rfl, rfl⟩)).2.1
    ⟨some "40001", "deadlock detected"⟩ rfl rfl
  simpa [backoffDelays] using h

/-! ## Claims about the read-through cache -/

/-- C10: `cachedQuery` serves a stored result as a cache hit (producer not
re-executed) only when the stored value is defined and the entry's TTL
has not expired; and once a producer returning `undefined` has been
cached, every subsequent call for that key misses and re-executes its
producer, because `NodeCache.get` reports the stored `undefined`
identically to a missing key. -/
theorem cachedQuery_undefined_spec (K V : Type) [DecidableEq K]
    (c : NCache K V) (k : K) (producer : Option V) (ttl now : Nat) :
    ((cachedQuery c k producer ttl now).producerRan = false →
      ∃ v e, ncFind c k = some (some v, e) ∧ now ≤ e
        ∧ (cachedQuery c k producer ttl now).value = some v)
    ∧ (producer = none →
      (cachedQuery c k producer ttl now).producerRan = true →
      ∀ (p' : Option V) (ttl' now' : Nat),
        (cachedQuery (cachedQuery c k producer ttl now).cache k p' ttl' now').producerRan
          = true) := by
  constructor
  · intro hran
    unfold cachedQuery at *
    rcases hget : ncGet c k now with _ | v
    · rw [hget] at hran
      simp at hran
    · unfold ncGet at hget
      rcases hfind : ncFind c k with _ | ⟨v', e⟩
      · rw [hfind] at hget
        simp at hget
      · rw [hfind] at hget
        simp only [] at hget
        by_cases hle : now ≤ e
        · rw [if_pos hle] at hget
          exact ⟨v, e, by rw [hget], hle, rfl⟩
        · rw [if_neg hle] at hget
          simp at hget
  · intro hp hran p' ttl' now'
    subst hp
    unfold cachedQuery at *
    rcases hget : ncGet c k now with _ | v
    · have hfind' : ncFind (ncSet c k none ttl now) k = some (none, now + ttl) := by
        unfold ncSet ncFind
        simp
      have hnone : ncGet (ncSet c k none ttl now) k now' = none := by
        unfold ncGet
        rw [hfind']
        simp
      simp [hnone]
    · rw [hget] at hran
      simp at hran

/-- Witness for C10 at a concrete cache: a key caching a defined value is
served without re-running the producer, while a key that cached an
`undefined` producer result re-runs the producer on the next call. -/
theorem cachedQuery_undefined_spec_witness :
    (∃ v e, ncFind [((1 : Nat), some (5 : Nat), 60)] 1 = some (some v, e)
      ∧ 10 ≤ e
      ∧ (cachedQuery [((1 : Nat), some (5 : Nat), 60)] 1 (some 7) 300 10).value = some v)
    ∧ (cachedQuery (cachedQuery ([] : NCache Nat Nat) 1 none 300 0).cache 1 (some 7) 300 10).producerRan
        = true := by
  constructor
  · exact (cachedQuery_undefined_spec Nat Nat [((1 : Nat), some (5 : Nat), 60)] 1
      (some 7) 300 10).1 (by decide)
  · exact (cachedQuery_undefined_spec Nat Nat ([] : NCache Nat Nat) 1 none 300 0).2
      rfl rfl (some 7) 300 10

/-! ## Claims about the purchase path -/

theorem purchasePoster_soldOut_eq (s : StoreState) (img : GeneratedImage)
    (sc ts : Nat) (him : s.image = some img) (hpub : img.isPublic = true)
    (hsc : img.soldCount = some sc) (hts : img.totalSupply = some ts)
    (hts0 : 0 < ts) (hge : ts ≤ sc) :
    purchasePoster s none = (.soldOut, s) := by
  have hjs : jsOr img.soldCount 0 = sc := by rw [hsc]; exact jsOr_some_zero sc
  have hjt : jsOr img.totalSupply 10 = ts := by rw [hts]; exact jsOr_some_pos 10 hts0
  unfold purchasePoster
  rw [him]
  simp [hpub, hjs, hjt, hge]

theorem purchasePoster_success_eq (s : StoreState) (img : GeneratedImage)
    (sc ts : Nat) (him : s.image = some img) (hpub : img.isPublic = true)
    (hsc : img.soldCount = some sc) (hts : img.totalSupply = some ts)
    (hts0 : 0 < ts) (hlt : sc < ts) :
    purchasePoster s none =
      (.success (sc + 1) (jsOr img.pricePerUnit 2995),
       { s with
         image := some { img with soldCount := some (sc + 1) }
         purchases := s.purchases ++ [⟨0, sc + 1, jsOr img.pricePerUnit 2995⟩]
         purCache := ncDel s.purCache ()
         orders := s.orders + 1 }) := by
  have hjs : jsOr img.soldCount 0 = sc := by rw [hsc]; exact jsOr_some_zero sc
  have hjt : jsOr img.totalSupply 10 = ts := by rw [hts]; exact jsOr_some_pos 10 hts0
  unfold purchasePoster
  rw [him]
  simp [hpub, hjs, hjt, Nat.not_le.mpr hlt]

/-- The C1 claim of end-to-end transactional atomicity is refuted on the
code: `storage.createPosterPurchase` runs its insert through the global
`db` handle rather than the transaction's `tx`, so when the
`soldCount` update inside the transaction fails before commit, the
transaction rolls back yet the Purchase row persists while `soldCount`
is unchanged — exactly the partial state the claim rules out. -/
theorem purchase_partial_state_on_midtx_failure :
    purchasePoster
        ⟨some ⟨7, true, true, some 1, some 0, some 2995, .limited, none⟩, [], 0, [], []⟩
        (some .atUpdateSold)
      = (.txAborted .atUpdateSold,
         ⟨some ⟨7, true, true, some 1, some 0, some 2995, .limited, none⟩,
          [⟨0, 1, 2995⟩], 0, [], []⟩) := rfl

/-- C2: a purchase of an existing, published artifact run without
interference either aborts with `SoldOut` leaving the state untouched
(when `soldCount ≥ totalSupply`), or records exactly one Purchase with
`editionNumber = soldCount + 1` and updates the artifact's `soldCount`
to that edition number. -/
theorem purchase_sequential_spec (s : StoreState) (img : GeneratedImage)
    (sc ts : Nat) (him : s.image = some img) (hpub : img.isPublic = true)
    (hsc : img.soldCount = some sc) (hts : img.totalSupply = some ts)
    (hts0 : 0 < ts) :
    (ts ≤ sc → purchasePoster s none = (.soldOut, s))
    ∧ (sc < ts →
        purchasePoster s none =
          (.success (sc + 1) (jsOr img.pricePerUnit 2995),
           { s with
             image := some { img with soldCount := some (sc + 1) }
             purchases := s.purchases ++ [⟨0, sc + 1, jsOr img.pricePerUnit 2995⟩]
             purCache := ncDel s.purCache ()
             orders := s.orders + 1 })) :=
  ⟨purchasePoster_soldOut_eq s img sc ts him hpub hsc hts hts0,
   purchasePoster_success_eq s img sc ts him hpub hsc hts hts0⟩

/-- Witness for C2 at a concrete artifact with `totalSupply = 2`: a
purchase at `soldCount = 1` succeeds with edition 2, and a purchase at
`soldCount = 2` is rejected as sold out with no state change. -/
theorem purchase_sequential_spec_witness :
    purchasePoster
        ⟨some ⟨7, true, true, some 2, some 1, some 2995, .limited, none⟩, [⟨0, 1, 2995⟩], 0, [], []⟩
        none
      = (.success 2 2995,
         ⟨some ⟨7, true, true, some 2, some 2, some 2995, .limited, none⟩,
          [⟨0, 1, 2995⟩, ⟨0, 2, 2995⟩], 1, [], []⟩)
    ∧ purchasePoster
        ⟨some ⟨7, true, true, some 2, some 2, some 2995, .limited, none⟩, [], 0, [], []⟩
        none
      = (.soldOut,
         ⟨some ⟨7, true, true, some 2, some 2, some 2995, .limited, none⟩, [], 0, [], []⟩) := by
  constructor
  · have h := (purchase_sequential_spec
      ⟨some ⟨7, true, true, some 2, some 1, some 2995, .limited, none⟩, [⟨0, 1, 2995⟩], 0, [], []⟩
      ⟨7, true, true, some 2, some 1, some 2995, .limited, none⟩ 1 2
      rfl rfl rfl rfl (by omega)).2 (by omega)
    exact h
  · have h := (purchase_sequential_spec
      ⟨some ⟨7, true, true, some 2, some 2, some 2995, .limited, none⟩, [], 0, [], []⟩
      ⟨7, true, true, some 2, some 2, some 2995, .limited, none⟩ 2 2
      rfl rfl rfl rfl (by omega)).1 (by omega)
    exact h

/-- The C3 claim (2N concurrent attempts on supply N always yield exactly
N successes with editions 1…N and N `SoldOut` rejections) is refuted on
the code: with `totalSupply = 1` and two concurrent handlers whose
in-transaction selects both run before either commit, both compute
edition 1; the second insert hits the `(imageId, editionNumber)`
uniqueness constraint, so the interleaving yields one success and one
unique-violation failure — zero `SoldOut` rejections. -/
theorem concurrent_purchase_race :
    concRun [0, 1, 0, 0, 0, 1] (concInit 2 0 1)
      = { sold := 1, supply := 1, rows := [1], lock := none, pending := 1,
          threads := [⟨4, 0, some (.success 1)⟩, ⟨4, 0, some .uniqueViolation⟩] }
    ∧ ((concRun [0, 1, 0, 0, 0, 1] (concInit 2 0 1)).threads.filter
         (fun th => th.res = some .soldOut)).length = 0 := by
  exact ⟨rfl, rfl⟩

/-- The C4 claim is refuted on the code: the purchase path never
invalidates the `generated-image:<id>` cache key backing availability
reads, so an availability read seeded at time 0 still reports remaining
supply 2 at time 10 (within the 60 s TTL) after a purchase committed
`soldCount = 1`, whereas a fresh read of the row would report remaining
supply 1. -/
theorem stale_availability_after_purchase :
    (purchasePoster
        ((checkImageAvailability
          ⟨some ⟨7, true, true, some 2, some 0, some 2995, .limited, none⟩, [], 0, [], []⟩ 0).2)
        none).1
      = .success 1 2995
    ∧ (purchasePoster
        ((checkImageAvailability
          ⟨some ⟨7, true, true, some 2, some 0, some 2995, .limited, none⟩, [], 0, [], []⟩ 0).2)
        none).2.image
      = some ⟨7, true, true, some 2, some 1, some 2995, .limited, none⟩
    ∧ (checkImageAvailability
        ((purchasePoster
          ((checkImageAvailability
            ⟨some ⟨7, true, true, some 2, some 0, some 2995, .limited, none⟩, [], 0, [], []⟩ 0).2)
          none).2) 10).1
      = (true, 2)
    ∧ availabilityOf ⟨7, true, true, some 2, some 1, some 2995, .limited, none⟩
      = (true, 1) := by
  exact ⟨rfl, rfl, rfl, rfl⟩

/-- Amended C4: after a successful purchase only the artifact's
purchase-list cache key (`poster-purchases:<id>`) has been invalidated
(already before commit, from inside `createPosterPurchase`); the
artifact's detail key (`generated-image:<id>`), which is the key that
backs `checkImageAvailability`, is left untouched — there is no separate
availability key — so a cache-seeded availability read keeps reporting
the pre-purchase row until the 60-second TTL expires. -/
theorem purchase_cache_invalidation_amended (s : StoreState)
    (img : GeneratedImage) (sc ts : Nat) (him : s.image = some img)
    (hpub : img.isPublic = true) (hsc : img.soldCount = some sc)
    (hts : img.totalSupply = some ts) (hts0 : 0 < ts) (hlt : sc < ts) :
    (purchasePoster s none).2.imgCache = s.imgCache
    ∧ (purchasePoster s none).2.purCache = ncDel s.purCache ()
    ∧ ∀ (img₀ : GeneratedImage) (now : Nat),
        ncGet s.imgCache () now = some img₀ →
        (checkImageAvailability (purchasePoster s none).2 now).1
          = availabilityOf img₀ := by
  rw [purchasePoster_success_eq s img sc ts him hpub hsc hts hts0 hlt]
  refine ⟨rfl, rfl, ?_⟩
  intro img₀ now hget
  unfold checkImageAvailability getGeneratedImageById cachedQuery
  simp only [hget]

/-- Witness for the amended C4 theorem at a concrete seeded cache: after
the purchase the detail cache entry is untouched and a cached
availability read reproduces the stale row's availability. -/
theorem purchase_cache_invalidation_amended_witness :
    (purchasePoster
        ⟨some ⟨7, true, true, some 2, some 0, some 2995, .limited, none⟩, [], 0,
         [((), some ⟨7, true, true, some 2, some 0, some 2995, .limited, none⟩, 60)],
         [((), some [], 60)]⟩ none).2.imgCache
      = [((), some ⟨7, true, true, some 2, some 0, some 2995, .limited, none⟩, 60)]
    ∧ (checkImageAvailability
        (purchasePoster
          ⟨some ⟨7, true, true, some 2, some 0, some 2995, .limited, none⟩, [], 0,
           [((), some ⟨7, true, true, some 2, some 0, some 2995, .limited, none⟩, 60)],
           [((), some [], 60)]⟩ none).2 10).1
      = availabilityOf ⟨7, true, true, some 2, some 0, some 2995, .limited, none⟩ := by
  have h := purchase_cache_invalidation_amended
    ⟨some ⟨7, true, true, some 2, some 0, some 2995, .limited, none⟩, [], 0,
     [((), some ⟨7, true, true, some 2, some 0, some 2995, .limited, none⟩, 60)],
     [((), some [], 60)]⟩
    ⟨7, true, true, some 2, some 0, some 2995, .limited, none⟩ 0 2
    rfl rfl rfl rfl (by omega) (by omega)
  exact ⟨h.1, h.2.2 ⟨7, true, true, some 2, some 0, some 2995, .limited, none⟩ 10 rfl⟩

/-! ## Claims about the publish / quota path -/

/-- C9: a well-formed publish request by a non-exempt seller who already
has `postersForSale ≥ 2` is rejected with the quota error before the
transaction, mutating neither the artifact nor the counter. -/
theorem publish_quota_rejection (s : PublishState) (c : PublishCall)
    (img : GeneratedImage)
    (him : lookupImage s.images c.imageId = some img)
    (hown : img.userId = s.user.id)
    (hpub : c.isPublic = true)
    (hts : ∃ t, c.totalSupply = some t ∧ 1 ≤ t ∧ t ≤ 1000)
    (hppu : ∃ p, c.pricePerUnit = some p ∧ 2995 ≤ p)
    (hex : c.exempt = false)
    (hq : 2 ≤ s.user.postersForSale) :
    setPublished s c = (.quotaExceeded, s, false) := by
  obtain ⟨t, hct, ht1, ht2⟩ := hts
  obtain ⟨p, hcp, hp1⟩ := hppu
  have hjt : jsOr c.totalSupply 0 = t := by
    rw [hct]
    exact jsOr_some_pos 0 (by omega)
  have hjp : jsOr c.pricePerUnit 0 = p := by
    rw [hcp]
    exact jsOr_some_pos 0 (by omega)
  unfold setPublished
  rw [him]
  simp [hpub, hjt, hjp, hown, hex, hq]
  rw [if_neg (by omega), if_neg (by omega)]

/-- Witness for C9: a concrete non-exempt seller with `postersForSale = 2`
publishing a valid unpublished artifact gets `QuotaExceeded` and the
state is untouched. -/
theorem publish_quota_rejection_witness :
    setPublished
        ⟨[(1, ⟨7, false, false, none, none, none, .limited, none⟩)], ⟨7, 2⟩⟩
        ⟨1, true, some 5, some 2995, false⟩
      = (.quotaExceeded,
         ⟨[(1, ⟨7, false, false, none, none, none, .limited, none⟩)], ⟨7, 2⟩⟩,
         false) := by
  exact publish_quota_rejection
    ⟨[(1, ⟨7, false, false, none, none, none, .limited, none⟩)], ⟨7, 2⟩⟩
    ⟨1, true, some 5, some 2995, false⟩
    ⟨7, false, false, none, none, none, .limited, none⟩
    rfl rfl rfl ⟨5, rfl, by omega, by omega⟩ ⟨2995, rfl, by omega⟩ rfl (by decide)

/-- The C6 claim is refuted on the code: the sales guard additionally
requires the artifact to be currently published (`image.isPublic`), so
an artifact with `soldCount = 1` that is currently unpublished can be
re-published with a different `totalSupply` and `pricePerUnit`, which
the handler accepts and persists. -/
theorem supply_change_counterexample :
    setPublished
        ⟨[(1, ⟨7, false, false, some 5, some 1, some 2995, .limited, none⟩)], ⟨7, 0⟩⟩
        ⟨1, true, some 7, some 3495, false⟩
      = (.ok,
         ⟨[(1, ⟨7, true, false, some 7, some 1, some 3495, .limited, some "flat"⟩)], ⟨7, 1⟩⟩,
         true) := rfl

/-- Amended C6: only while an artifact is currently published does
`soldCount > 0` make `totalSupply`/`pricePerUnit` immutable — a publish
or unpublish call that attempts to change either of them (and passes
the checks that precede the guard) is rejected with the supply-change
error and mutates nothing; for a currently unpublished artifact the
guard does not apply even when `soldCount > 0`. -/
theorem supply_guard_amended (s : PublishState) (c : PublishCall)
    (img : GeneratedImage)
    (him : lookupImage s.images c.imageId = some img)
    (hown : img.userId = s.user.id)
    (hpubBefore : img.isPublic = true)
    (hsold : soldPositive img = true)
    (hchg : c.totalSupply ≠ img.totalSupply ∨ c.pricePerUnit ≠ img.pricePerUnit)
    (hval : c.isPublic = true →
      (∃ t, c.totalSupply = some t ∧ 1 ≤ t ∧ t ≤ 1000)
      ∧ (∃ p, c.pricePerUnit = some p ∧ 2995 ≤ p)
      ∧ (c.exempt = true ∨ s.user.postersForSale < 2)) :
    setPublished s c = (.invalidSupplyChange, s, false) := by
  by_cases hp : c.isPublic = true
  · obtain ⟨⟨t, hct, ht1, ht2⟩, ⟨p, hcp, hp1⟩, hquota⟩ := hval hp
    have hjt : jsOr c.totalSupply 0 = t := by
      rw [hct]
      exact jsOr_some_pos 0 (by omega)
    have hjp : jsOr c.pricePerUnit 0 = p := by
      rw [hcp]
      exact jsOr_some_pos 0 (by omega)
    have hts' : ¬(jsOr c.totalSupply 0 = 0 ∨ 1000 < jsOr c.totalSupply 0) := by
      rw [hjt]
      omega
    have hq' : ¬(c.exempt = false ∧ 2 ≤ s.user.postersForSale) := by
      rcases hquota with h | h
      · intro hc
        rw [h] at hc
        exact absurd hc.1 (by simp)
      · intro hc
        omega
    unfold setPublished
    rw [him]
    simp [hp, hjt, hjp, hts', hq', hown, hpubBefore, hsold, hchg]
    rw [if_neg (by omega), if_neg (by omega)]
  · have hp' : c.isPublic = false := by
      simpa using hp
    unfold setPublished
    rw [him]
    simp [hp', hown, hpubBefore, hsold, hchg]

/-- Witness for the amended C6 theorem: unpublishing a currently published
artifact with `soldCount = 1` while omitting the supply/price fields
(hence "changing" them relative to the row) is rejected with the
supply-change error and leaves the state unchanged. -/
theorem supply_guard_amended_witness :
    setPublished
        ⟨[(1, ⟨7, true, true, some 5, some 1, some 2995, .limited, some "flat"⟩)], ⟨7, 1⟩⟩
        ⟨1, true, some 9, some 2995, false⟩
      = (.invalidSupplyChange,
         ⟨[(1, ⟨7, true, true, some 5, some 1, some 2995, .limited, some "flat"⟩)], ⟨7, 1⟩⟩,
         false) := by
  exact supply_guard_amended
    ⟨[(1, ⟨7, true, true, some 5, some 1, some 2995, .limited, some "flat"⟩)], ⟨7, 1⟩⟩
    ⟨1, true, some 9, some 2995, false⟩
    ⟨7, true, true, some 5, some 1, some 2995, .limited, some "flat"⟩
    rfl rfl rfl rfl (Or.inl (by decide))
    (fun _ => ⟨⟨9, rfl, by omega, by omega⟩, ⟨2995, rfl, by omega⟩, Or.inr (by decide)⟩)

/-- The C5 claim is refuted on the code when the seller's exemption
changes during the sequence: artifact 1 is published while exempt (no
increment), artifact 2 is published while non-exempt (counter 1), then
artifact 1 is unpublished while non-exempt — the handler decrements the
counter to 0 although artifact 2, published while non-exempt, is still
published, so the claimed equality `postersForSale = 1` fails. -/
theorem quota_counter_counterexample :
    (runPublishTagged
        ⟨[(1, ⟨7, false, false, none, none, none, .limited, none⟩),
          (2, ⟨7, false, false, none, none, none, .limited, none⟩)], ⟨7, 0⟩⟩ []
        [⟨1, true, some 5, some 2995, true⟩,
         ⟨2, true, some 5, some 2995, false⟩,
         ⟨1, false, none, none, false⟩]).1.user.postersForSale = 0
    ∧ (runPublishTagged
        ⟨[(1, ⟨7, false, false, none, none, none, .limited, none⟩),
          (2, ⟨7, false, false, none, none, none, .limited, none⟩)], ⟨7, 0⟩⟩ []
        [⟨1, true, some 5, some 2995, true⟩,
         ⟨2, true, some 5, some 2995, false⟩,
         ⟨1, false, none, none, false⟩]).2 = [2]
    ∧ ((lookupImage
        (runPublishTagged
          ⟨[(1, ⟨7, false, false, none, none, none, .limited, none⟩),
            (2, ⟨7, false, false, none, none, none, .limited, none⟩)], ⟨7, 0⟩⟩ []
          [⟨1, true, some 5, some 2995, true⟩,
           ⟨2, true, some 5, some 2995, false⟩,
           ⟨1, false, none, none, false⟩]).1.images 2).map GeneratedImage.isPublic
        = some true) := by
  exact ⟨rfl, rfl, rfl⟩

theorem updateImage_keys (images : List (Nat × GeneratedImage)) (id : Nat)
    (g : GeneratedImage) :
    (updateImage images id g).map Prod.fst = images.map Prod.fst := by
  induction images with
  | nil => rfl
  | cons hd tl ih =>
    unfold updateImage at ih ⊢
    by_cases h : hd.1 = id <;> simp [h] <;> simpa using ih

theorem updateImage_not_mem (images : List (Nat × GeneratedImage)) (id : Nat)
    (g : GeneratedImage) (h : id ∉ images.map Prod.fst) :
    updateImage images id g = images := by
  induction images with
  | nil => rfl
  | cons hd tl ih =>
    simp only [List.map_cons, List.mem_cons, not_or] at h
    show (if hd.1 = id then (hd.1, g) else hd) :: updateImage tl id g = hd :: tl
    rw [if_neg (fun he => h.1 he.symm), ih h.2]

theorem countPublished_update (images : List (Nat × GeneratedImage)) (id : Nat)
    (img g : GeneratedImage) (uid : Nat)
    (hfind : lookupImage images id = some img)
    (hnodup : (images.map Prod.fst).Nodup) :
    countPublished (updateImage images id g) uid
      + (if img.userId = uid ∧ img.isPublic = true then 1 else 0)
    = countPublished images uid
      + (if g.userId = uid ∧ g.isPublic = true then 1 else 0) := by
  induction images with
  | nil => simp [lookupImage] at hfind
  | cons hd tl ih =>
    obtain ⟨i, h⟩ := hd
    simp only [List.map_cons, List.nodup_cons] at hnodup
    by_cases hid : id = i
    · subst hid
      have hfind' : h = img := by
        have : (if id = id then some h else lookupImage tl id) = some img := hfind
        rw [if_pos rfl] at this
        injection this
      subst hfind'
      have hupd : updateImage ((id, h) :: tl) id g = (id, g) :: tl := by
        show (if id = id then (id, g) else (id, h)) :: updateImage tl id g
          = (id, g) :: tl
        rw [if_pos rfl, updateImage_not_mem tl id g hnodup.1]
      rw [hupd]
      unfold countPublished
      simp only [List.filter_cons]
      by_cases hg : g.userId = uid ∧ g.isPublic = true <;>
        by_cases hh : h.userId = uid ∧ h.isPublic = true <;>
          simp [hg, hh]
    · have hfind' : lookupImage tl id = some img := by
        have : (if id = i then some h else lookupImage tl id) = some img := hfind
        rwa [if_neg hid] at this
      have hupd : updateImage ((i, h) :: tl) id g
          = (i, h) :: updateImage tl id g := by
        show (if i = id then (i, g) else (i, h)) :: updateImage tl id g = _
        rw [if_neg (fun he => hid he.symm)]
      rw [hupd]
      have hrec := ih hfind' hnodup.2
      unfold countPublished at hrec ⊢
      simp only [List.filter_cons]
      by_cases hh : h.userId = uid ∧ h.isPublic = true <;>
        simp [hh] at hrec ⊢ <;> omega

theorem setPublished_counter_cases (s : PublishState) (c : PublishCall) :
    (setPublished s c).2.1.user.postersForSale = s.user.postersForSale
    ∨ (setPublished s c).2.1.user.postersForSale = s.user.postersForSale + 1
    ∨ (setPublished s c).2.1.user.postersForSale
        = max 0 (s.user.postersForSale - 1) := by
  unfold setPublished
  repeat' split
  all_goals
    first
      | exact Or.inl rfl
      | exact Or.inr (Or.inl rfl)
      | exact Or.inr (Or.inr rfl)

theorem countPublished_pos (images : List (Nat × GeneratedImage)) (id : Nat)
    (img : GeneratedImage) (uid : Nat)
    (hfind : lookupImage images id = some img)
    (hown : img.userId = uid) (hpub : img.isPublic = true) :
    1 ≤ countPublished images uid := by
  induction images with
  | nil => simp [lookupImage] at hfind
  | cons hd tl ih =>
    obtain ⟨i, h⟩ := hd
    by_cases hid : id = i
    · subst hid
      have hfind' : h = img := by
        have : (if id = id then some h else lookupImage tl id) = some img := hfind
        rw [if_pos rfl] at this
        injection this
      subst hfind'
      unfold countPublished
      simp [List.filter_cons, hown, hpub]
    · have hfind' : lookupImage tl id = some img := by
        have : (if id = i then some h else lookupImage tl id) = some img := hfind
        rwa [if_neg hid] at this
      have := ih hfind'
      unfold countPublished at this ⊢
      simp only [List.filter_cons]
      split
      · simp
      · exact this

theorem setPublished_invariant_step (s : PublishState) (c : PublishCall)
    (hnodup : (s.images.map Prod.fst).Nodup)
    (hex : c.exempt = false)
    (hinv : s.user.postersForSale = (countPublished s.images s.user.id : Int)) :
    (setPublished s c).2.1.user.postersForSale
      = (countPublished (setPublished s c).2.1.images
          (setPublished s c).2.1.user.id : Int) := by
  unfold setPublished
  split
  · exact hinv
  · split
    · exact hinv
    · split
      · exact hinv
      · rename_i image heq
        split
        · exact hinv
        · rename_i hforb
          have hown : image.userId = s.user.id := not_ne_iff.mp hforb
          split
          · exact hinv
          · split
            · exact hinv
            · split
              · rename_i htrans
                obtain ⟨-, hcpub, himnot⟩ := htrans
                have himg : image.isPublic = false := by
                  simpa using himnot
                show s.user.postersForSale + 1
                  = (countPublished
                      (updateImage s.images c.imageId (publishUpdatedImage c image))
                      s.user.id : Int)
                have hcount := countPublished_update s.images c.imageId image
                  (publishUpdatedImage c image) s.user.id heq hnodup
                have hga : (publishUpdatedImage c image).userId = s.user.id := by
                  simp [publishUpdatedImage, hcpub, hown]
                have hgb : (publishUpdatedImage c image).isPublic = true := by
                  simp [publishUpdatedImage, hcpub]
                rw [if_neg (by simp [himg]), if_pos ⟨hga, hgb⟩] at hcount
                omega
              · split
                · rename_i hntrans htrans
                  obtain ⟨-, hcnot, himpub⟩ := htrans
                  have hcpub : c.isPublic = false := by
                    simpa using hcnot
                  show max 0 (s.user.postersForSale - 1)
                    = (countPublished
                        (updateImage s.images c.imageId (publishUpdatedImage c image))
                        s.user.id : Int)
                  have hcount := countPublished_update s.images c.imageId image
                    (publishUpdatedImage c image) s.user.id heq hnodup
                  have hgb : (publishUpdatedImage c image).isPublic = false := by
                    simp [publishUpdatedImage, hcpub]
                  rw [if_pos ⟨hown, himpub⟩, if_neg (by simp [hgb])] at hcount
                  have hpos := countPublished_pos s.images c.imageId image s.user.id
                    heq hown himpub
                  omega
                · rename_i hntrans hntrans2
                  show s.user.postersForSale
                    = (countPublished
                        (updateImage s.images c.imageId (publishUpdatedImage c image))
                        s.user.id : Int)
                  have hcount := countPublished_update s.images c.imageId image
                    (publishUpdatedImage c image) s.user.id heq hnodup
                  by_cases hc : c.isPublic = true
                  · have himg : image.isPublic = true := by
                      by_contra hne
                      have : image.isPublic = false := by simpa using hne
                      exact hntrans ⟨by simp [hex], hc, by simp [this]⟩
                    have hga : (publishUpdatedImage c image).userId = s.user.id := by
                      simp [publishUpdatedImage, hc, hown]
                    have hgb : (publishUpdatedImage c image).isPublic = true := by
                      simp [publishUpdatedImage, hc]
                    rw [if_pos ⟨hown, himg⟩, if_pos ⟨hga, hgb⟩] at hcount
                    omega
                  · have hc' : c.isPublic = false := by simpa using hc
                    have himg : image.isPublic = false := by
                      by_contra hne
                      have hit : image.isPublic = true := by simpa using hne
                      exact hntrans2 ⟨by simp [hex], by simp [hc'], hit⟩
                    have hgb : (publishUpdatedImage c image).isPublic = false := by
                      simp [publishUpdatedImage, hc']
                    rw [if_neg (by simp [himg]), if_neg (by simp [hgb])] at hcount
                    omega

theorem setPublished_keys (s : PublishState) (c : PublishCall) :
    (setPublished s c).2.1.images.map Prod.fst = s.images.map Prod.fst
    ∧ (setPublished s c).2.1.user.id = s.user.id := by
  unfold setPublished
  repeat' split
  all_goals
    first
      | exact ⟨rfl, rfl⟩
      | exact ⟨updateImage_keys _ _ _, rfl⟩

theorem runPublish_cons (s : PublishState) (c : PublishCall)
    (cs : List PublishCall) :
    runPublish s (c :: cs) = runPublish (setPublished s c).2.1 cs := rfl

theorem runPublish_nonneg (cs : List PublishCall) :
    ∀ s : PublishState, 0 ≤ s.user.postersForSale →
      0 ≤ (runPublish s cs).user.postersForSale := by
  induction cs with
  | nil =>
    intro s h
    exact h
  | cons c cs ih =>
    intro s h
    rw [runPublish_cons]
    refine ih _ ?_
    rcases setPublished_counter_cases s c with h1 | h1 | h1 <;> rw [h1] <;> omega

theorem runPublish_invariant (cs : List PublishCall) :
    ∀ s : PublishState, (s.images.map Prod.fst).Nodup →
      cs.all (fun c => !c.exempt) = true →
      s.user.postersForSale = (countPublished s.images s.user.id : Int) →
      (runPublish s cs).user.postersForSale
        = (countPublished (runPublish s cs).images
            (runPublish s cs).user.id : Int) := by
  induction cs with
  | nil =>
    intro s _ _ h
    exact h
  | cons c cs ih =>
    intro s hnodup hall hinv
    simp only [List.all_cons, Bool.and_eq_true] at hall
    have hex : c.exempt = false := by
      simpa using hall.1
    rw [runPublish_cons]
    refine ih _ ?_ hall.2 ?_
    · rw [(setPublished_keys s c).1]
      exact hnodup
    · exact setPublished_invariant_step s c hnodup hex hinv

/-- Amended C5: the `postersForSale` counter is never negative, and for a
seller who is non-exempt at every call, after any sequence of
`setPublished` calls starting from a consistent state (counter equal to
the number of currently published artifacts, image ids distinct) the
counter equals the number of the seller's currently published artifacts
— which, in that case, were all published while non-exempt.  When the
exemption changes between calls, the equality of the original claim can
fail. -/
theorem quota_counter_amended (cs : List PublishCall) (s : PublishState) :
    (0 ≤ s.user.postersForSale → 0 ≤ (runPublish s cs).user.postersForSale)
    ∧ ((s.images.map Prod.fst).Nodup →
       cs.all (fun c => !c.exempt) = true →
       s.user.postersForSale = (countPublished s.images s.user.id : Int) →
       (runPublish s cs).user.postersForSale
         = (countPublished (runPublish s cs).images
             (runPublish s cs).user.id : Int)) :=
  ⟨runPublish_nonneg cs s, runPublish_invariant cs s⟩

/-- Witness for the amended C5 theorem on the spec's own scenario: a
non-exempt seller publishes artifacts 1 and 2 (counter 2), gets
`QuotaExceeded` on artifact 3, unpublishes artifact 1 (counter 1), and
then successfully publishes artifact 3 — the counter stays non-negative
and ends equal to the published count 2. -/
theorem quota_counter_amended_witness :
    0 ≤ (runPublish
        ⟨[(1, ⟨7, false, false, none, none, none, .limited, none⟩),
          (2, ⟨7, false, false, none, none, none, .limited, none⟩),
          (3, ⟨7, false, false, none, none, none, .limited, none⟩)], ⟨7, 0⟩⟩
        [⟨1, true, some 5, some 2995, false⟩,
         ⟨2, true, some 5, some 2995, false⟩,
         ⟨3, true, some 5, some 2995, false⟩,
         ⟨1, false, none, none, false⟩,
         ⟨3, true, some 5, some 2995, false⟩]).user.postersForSale
    ∧ (runPublish
        ⟨[(1, ⟨7, false, false, none, none, none, .limited, none⟩),
          (2, ⟨7, false, false, none, none, none, .limited, none⟩),
          (3, ⟨7, false, false, none, none, none, .limited, none⟩)], ⟨7, 0⟩⟩
        [⟨1, true, some 5, some 2995, false⟩,
         ⟨2, true, some 5, some 2995, false⟩,
         ⟨3, true, some 5, some 2995, false⟩,
         ⟨1, false, none, none, false⟩,
         ⟨3, true, some 5, some 2995, false⟩]).user.postersForSale
      = (countPublished
          (runPublish
            ⟨[(1, ⟨7, false, false, none, none, none, .limited, none⟩),
              (2, ⟨7, false, false, none, none, none, .limited, none⟩),
              (3, ⟨7, false, false, none, none, none, .limited, none⟩)], ⟨7, 0⟩⟩
            [⟨1, true, some 5, some 2995, false⟩,
             ⟨2, true, some 5, some 2995, false⟩,
             ⟨3, true, some 5, some 2995, false⟩,
             ⟨1, false, none, none, false⟩,
             ⟨3, true, some 5, some 2995, false⟩]).images
          (runPublish
            ⟨[(1, ⟨7, false, false, none, none, none, .limited, none⟩),
              (2, ⟨7, false, false, none, none, none, .limited, none⟩),
              (3, ⟨7, false, false, none, none, none, .limited, none⟩)], ⟨7, 0⟩⟩
            [⟨1, true, some 5, some 2995, false⟩,
             ⟨2, true, some 5, some 2995, false⟩,
             ⟨3, true, some 5, some 2995, false⟩,
             ⟨1, false, none, none, false⟩,
             ⟨3, true, some 5, some 2995, false⟩]).user.id : Int) := by
  have h := quota_counter_amended
    [⟨1, true, some 5, some 2995, false⟩,
     ⟨2, true, some 5, some 2995, false⟩,
     ⟨3, true, some 5, some 2995, false⟩,
     ⟨1, false, none, none, false⟩,
     ⟨3, true, some 5, some 2995, false⟩]
    ⟨[(1, ⟨7, false, false, none, none, none, .limited, none⟩),
      (2, ⟨7, false, false, none, none, none, .limited, none⟩),
      (3, ⟨7, false, false, none, none, none, .limited, none⟩)], ⟨7, 0⟩⟩
  exact ⟨h.1 (by decide), h.2 (by decide) (by decide) (by decide)⟩

/-! ## Claims about the write circuit breaker -/

theorem takeWhile_all (p : Bool → Bool) (l : List Bool) (h : l.all p = true) :
    l.takeWhile p = l := by
  induction l with
  | nil => rfl
  | cons x xs ih =>
    simp only [List.all_cons, Bool.and_eq_true] at h
    simp [List.takeWhile_cons, h.1, ih h.2]

theorem takeWhile_append_all (p : Bool → Bool) (xs ys : List Bool)
    (h : xs.all p = true) :
    (xs ++ ys).takeWhile p = xs ++ ys.takeWhile p := by
  induction xs with
  | nil => rfl
  | cons x xs ih =>
    simp only [List.all_cons, Bool.and_eq_true] at h
    simp [List.takeWhile_cons, h.1, ih h.2]

theorem takeWhile_append_of_not_all (p : Bool → Bool) (xs ys : List Bool)
    (h : xs.all p = false) :
    (xs ++ ys).takeWhile p = xs.takeWhile p := by
  induction xs with
  | nil => simp at h
  | cons x xs ih =>
    by_cases hx : p x = true
    · have hxs : xs.all p = false := by
        simpa [List.all_cons, hx] using h
      simp [List.takeWhile_cons, hx, ih hxs]
    · have hx' : p x = false := by simpa using hx
      simp [List.takeWhile_cons, hx']

theorem trailingFailures_cons_true (l : List Bool) :
    trailingFailures (true :: l) = trailingFailures l := by
  unfold trailingFailures
  rw [List.reverse_cons]
  by_cases h : l.reverse.all (fun b => !b) = true
  · rw [takeWhile_append_all _ _ _ h]
    simp [takeWhile_all _ _ h]
  · have h' : l.reverse.all (fun b => !b) = false := by simpa using h
    rw [takeWhile_append_of_not_all _ _ _ h']

theorem trailingFailures_cons_false (l : List Bool) :
    trailingFailures (false :: l)
      = if l.all (fun b => !b) = true then l.length + 1
        else trailingFailures l := by
  unfold trailingFailures
  rw [List.reverse_cons]
  by_cases h : l.all (fun b => !b) = true
  · rw [if_pos h]
    have hrev : l.reverse.all (fun b => !b) = true := by
      simpa [List.all_reverse] using h
    rw [takeWhile_append_all _ _ _ hrev]
    simp
  · rw [if_neg h]
    have h' : l.reverse.all (fun b => !b) = false := by
      simp only [List.all_reverse]
      simpa using h
    rw [takeWhile_append_of_not_all _ _ _ h']

theorem trailingFailures_all (l : List Bool)
    (h : l.all (fun b => !b) = true) : trailingFailures l = l.length := by
  unfold trailingFailures
  have hrev : l.reverse.all (fun b => !b) = true := by
    simpa [List.all_reverse] using h
  rw [takeWhile_all _ _ hrev]
  simp

theorem runProbes_char (l : List (Bool × Nat)) :
    ∀ s : HealthState,
      (runProbes s l).consecutiveFailures
        = (if (l.map Prod.fst).all (fun b => !b) = true
           then s.consecutiveFailures + l.length
           else trailingFailures (l.map Prod.fst))
      ∧ (runProbes s l).databaseHealthy
        = (if (l.map Prod.fst).all (fun b => !b) = true
           then (if l.length = 0 then s.databaseHealthy
                 else s.databaseHealthy
                   && decide (s.consecutiveFailures + l.length < 3))
           else decide (trailingFailures (l.map Prod.fst) < 3)) := by
  induction l with
  | nil =>
    intro s
    simp [runProbes]
  | cons hd tl ih =>
    intro s
    obtain ⟨b, t⟩ := hd
    have hstep : runProbes s ((b, t) :: tl)
        = runProbes (checkDatabaseHealth s b t).2 tl := rfl
    by_cases hb : b = true
    · subst hb
      have hs' : (checkDatabaseHealth s true t).2 = ⟨true, t, 0⟩ := rfl
      have hallc : ((true :: tl.map Prod.fst).all fun x => !x) = false := by simp
      obtain ⟨ihc, ihh⟩ := ih (⟨true, t, 0⟩ : HealthState)
      rw [hstep, hs']
      simp only [List.map_cons, hallc, if_false, Bool.false_eq_true,
        trailingFailures_cons_true]
      by_cases htl : ((tl.map Prod.fst).all fun x => !x) = true
      · have hlen : trailingFailures (tl.map Prod.fst) = tl.length := by
          rw [trailingFailures_all _ htl]
          simp
        constructor
        · rw [ihc, if_pos htl]
          simp only [hlen]
          omega
        · rw [ihh, if_pos htl]
          simp only [hlen]
          by_cases hlen0 : tl.length = 0
          · simp [hlen0]
          · simp only [if_neg hlen0]
            have : 0 + tl.length = tl.length := by omega
            simp [this]
      · constructor
        · rw [ihc, if_neg htl]
        · rw [ihh, if_neg htl]
    · have hb' : b = false := by simpa using hb
      subst hb'
      have hs' : (checkDatabaseHealth s false t).2
          = ⟨if s.consecutiveFailures + 1 ≥ 3 then false else s.databaseHealthy,
             t, s.consecutiveFailures + 1⟩ := rfl
      obtain ⟨ihc, ihh⟩ := ih
        (⟨if s.consecutiveFailures + 1 ≥ 3 then false else s.databaseHealthy,
          t, s.consecutiveFailures + 1⟩ : HealthState)
      rw [hstep, hs']
      by_cases htl : ((tl.map Prod.fst).all fun x => !x) = true
      · have hallc : ((false :: tl.map Prod.fst).all fun x => !x) = true := by
          simp [htl]
        simp only [List.map_cons, hallc, if_pos, List.length_cons]
        constructor
        · rw [ihc, if_pos htl]
          show s.consecutiveFailures + 1 + tl.length
            = s.consecutiveFailures + (tl.length + 1)
          omega
        · rw [ihh, if_pos htl]
          simp only [if_neg (Nat.succ_ne_zero tl.length)]
          by_cases hlen0 : tl.length = 0
          · simp only [if_pos hlen0, hlen0]
            by_cases h3 : s.consecutiveFailures + 1 ≥ 3
            · simp only [if_pos h3]
              have hno : ¬(s.consecutiveFailures + (0 + 1) < 3) := by omega
              simp [hno]
            · simp only [if_neg h3]
              have hyes : s.consecutiveFailures + (0 + 1) < 3 := by omega
              simp [hyes]
          · simp only [if_neg hlen0]
            by_cases h3 : s.consecutiveFailures + 1 ≥ 3
            · simp only [if_pos h3]
              have hno : ¬(s.consecutiveFailures + (tl.length + 1) < 3) := by
                omega
              simp [hno]
            · simp only [if_neg h3]
              have harith : s.consecutiveFailures + 1 + tl.length
                  = s.consecutiveFailures + (tl.length + 1) := by omega
              simp only [harith]
      · have hallc : ((false :: tl.map Prod.fst).all fun x => !x) = false := by
          simp [htl]
        have hcf : trailingFailures (false :: tl.map Prod.fst)
            = trailingFailures (tl.map Prod.fst) := by
          rw [trailingFailures_cons_false, if_neg]
          simpa using htl
        simp only [List.map_cons, hallc, Bool.false_eq_true, if_false, hcf]
        constructor
        · rw [ihc, if_neg htl]
        · rw [ihh, if_neg htl]

/-- C8: the write circuit breaker never rejects a GET request in any
health state; a rejection with the retry-later 503 occurs only when the
recorded health state is unhealthy at the time of the request; one
successful probe always restores the healthy state; and, starting from
the initial healthy module state, the state is unhealthy after a probe
sequence exactly when the sequence ends in at least 3 consecutive
failures. -/
theorem health_breaker_spec :
    (∀ (s : HealthState) (now : Nat) (b : Bool),
       (databaseHealthMiddleware s "GET" now b).1 = .proceed)
    ∧ (∀ (s : HealthState) (m : String) (now : Nat) (b : Bool),
       (databaseHealthMiddleware s m now b).1 = .degraded →
         s.databaseHealthy = false)
    ∧ (∀ (s : HealthState) (now : Nat),
       (checkDatabaseHealth s true now).2.databaseHealthy = true)
    ∧ (∀ l : List (Bool × Nat),
       ((runProbes initHealth l).databaseHealthy = false
         ↔ 3 ≤ trailingFailures (l.map Prod.fst))) := by
  refine ⟨?_, ?_, ?_, ?_⟩
  · intro s now b
    simp [databaseHealthMiddleware]
  · intro s m now b h
    rcases hsb : s.databaseHealthy with _ | _
    · rfl
    · simp [databaseHealthMiddleware, hsb] at h
  · intro s now
    rfl
  · intro l
    have hchar := (runProbes_char l initHealth).2
    rw [hchar]
    by_cases hall : ((l.map Prod.fst).all fun b => !b) = true
    · rw [if_pos hall]
      have hlen : trailingFailures (l.map Prod.fst) = l.length := by
        rw [trailingFailures_all _ hall]
        simp
      simp only [hlen]
      by_cases hl : l.length = 0
      · simp only [if_pos hl, hl]
        simp [initHealth]
      · simp only [if_neg hl, initHealth, Bool.true_and, Nat.zero_add]
        by_cases h3 : l.length < 3
        · simp [h3]
        · simp [h3]
          omega
    · rw [if_neg hall]
      by_cases h3 : trailingFailures (l.map Prod.fst) < 3
      · simp [h3]
      · simp [h3]
        omega

/-- Witness for C8: a GET proceeds even in a concrete unhealthy state; a
POST in that state is rejected, and the theorem recovers that the state
was indeed unhealthy; one successful probe restores health; and after
three consecutive failed probes from startup the state is unhealthy. -/
theorem health_breaker_spec_witness :
    (databaseHealthMiddleware ⟨false, 0, 3⟩ "GET" 5 false).1 = .proceed
    ∧ HealthState.databaseHealthy ⟨false, 0, 3⟩ = false
    ∧ (checkDatabaseHealth ⟨false, 0, 3⟩ true 5).2.databaseHealthy = true
    ∧ (runProbes initHealth [(false, 1), (false, 2), (false, 3)]).databaseHealthy
        = false := by
  refine ⟨health_breaker_spec.1 ⟨false, 0, 3⟩ 5 false,
    health_breaker_spec.2.1 ⟨false, 0, 3⟩ "POST" 5 false rfl,
    health_breaker_spec.2.2.1 ⟨false, 0, 3⟩ 5,
    (health_breaker_spec.2.2.2 [(false, 1), (false, 2), (false, 3)]).mpr
      (by decide)⟩

end CoffeeBackend
